import Mathlib

/-!
Verification of the ext_proc attribute-resolution engine
(`source/extensions/filters/http/ext_proc/attr_utils.cc`).

The engine takes an ordered list of dotted attribute paths together with a
read-only `StreamInfo` snapshot of one request/response exchange, resolves
each path to a typed value, and accumulates the results in a map from
namespace name to a struct of field name to value (`attributes_`).

Shallow embedding notes:
* `google.api.expr.v1alpha1.Value` (the CEL value type produced by
  `ExprValueUtil`) is modelled by the inductive `Value` below.
* The mutable `attributes_` protobuf map is modelled as an association list
  threaded through the setters; insertion order is kept.
* Setters return `Option AttrMap`; `none` models a fatal runtime fault
  (dereferencing an empty `absl::optional`, calling `front()` on an empty
  SAN vector, or the null-pointer arithmetic in the `total_size` branch).
  Every other path of the C++ code returns normally, modelled by `some`.
* `absl::FormatDuration` and the protobuf timestamp formatting used by
  `getTs` are external library routines; the snapshot carries their output
  strings directly (`requestCompleteFormatted`, `startTimeFormatted`).
-/

namespace EnvoyAttr

/-- The CEL value kinds produced by `ExprValueUtil` in attr_utils.cc:
null, string, uint64, int64, bool and struct values. -/
inductive Value where
  | nullValue : Value
  | stringValue : String → Value
  | uint64Value : Nat → Value
  | int64Value : Int → Value
  | boolValue : Bool → Value
  | structValue : List (String × Value) → Value

/-- `ExprValueUtil::optionalStringValue`: the string value when the optional
is engaged, `nullValue` otherwise (attr_utils.cc lines 167-172). -/
def optionalStringValue : Option String → Value
  | some s => Value.stringValue s
  | none => Value.nullValue

/-- `enum class PropertyToken` (attr_utils.cc lines 39-41, 67). -/
inductive PropertyToken where
  | METADATA | REQUEST | RESPONSE | CONNECTION | UPSTREAM | SOURCE
  | DESTINATION | FILTER_STATE

/-- `enum class RequestToken` (attr_utils.cc lines 43-45, 68). -/
inductive RequestToken where
  | PATH | URL_PATH | HOST | SCHEME | METHOD | HEADERS | REFERER | USERAGENT
  | TIME | ID | PROTOCOL | DURATION | SIZE | TOTAL_SIZE

/-- `enum class ResponseToken` (attr_utils.cc lines 47-49, 71). -/
inductive ResponseToken where
  | CODE | CODE_DETAILS | FLAGS | GRPC_STATUS | HEADERS | TRAILERS | SIZE
  | TOTAL_SIZE

/-- `enum class ConnectionToken` (attr_utils.cc lines 51-54, 69). -/
inductive ConnectionToken where
  | ID | MTLS | REQUESTED_SERVER_NAME | TLS_VERSION
  | SUBJECT_LOCAL_CERTIFICATE | SUBJECT_PEER_CERTIFICATE
  | DNS_SAN_LOCAL_CERTIFICATE | DNS_SAN_PEER_CERTIFICATE
  | URI_SAN_LOCAL_CERTIFICATE | URI_SAN_PEER_CERTIFICATE
  | TERMINATION_DETAILS

/-- `enum class UpstreamToken` (attr_utils.cc lines 56-59, 70). -/
inductive UpstreamToken where
  | ADDRESS | PORT | TLS_VERSION
  | SUBJECT_LOCAL_CERTIFICATE | SUBJECT_PEER_CERTIFICATE
  | DNS_SAN_LOCAL_CERTIFICATE | DNS_SAN_PEER_CERTIFICATE
  | URI_SAN_LOCAL_CERTIFICATE | URI_SAN_PEER_CERTIFICATE
  | LOCAL_ADDRESS | TRANSPORT_FAILURE_REASON

/-- The `property_tokens` lookup map (attr_utils.cc lines 74-76): the eight
recognized namespace names, lower-cased at registration. -/
def property_tokens : String → Option PropertyToken
  | "metadata" => some PropertyToken.METADATA
  | "request" => some PropertyToken.REQUEST
  | "response" => some PropertyToken.RESPONSE
  | "connection" => some PropertyToken.CONNECTION
  | "upstream" => some PropertyToken.UPSTREAM
  | "source" => some PropertyToken.SOURCE
  | "destination" => some PropertyToken.DESTINATION
  | "filter_state" => some PropertyToken.FILTER_STATE
  | _ => none

/-- The `request_tokens` lookup map (attr_utils.cc lines 78-80). -/
def request_tokens : String → Option RequestToken
  | "path" => some RequestToken.PATH
  | "url_path" => some RequestToken.URL_PATH
  | "host" => some RequestToken.HOST
  | "scheme" => some RequestToken.SCHEME
  | "method" => some RequestToken.METHOD
  | "headers" => some RequestToken.HEADERS
  | "referer" => some RequestToken.REFERER
  | "useragent" => some RequestToken.USERAGENT
  | "time" => some RequestToken.TIME
  | "id" => some RequestToken.ID
  | "protocol" => some RequestToken.PROTOCOL
  | "duration" => some RequestToken.DURATION
  | "size" => some RequestToken.SIZE
  | "total_size" => some RequestToken.TOTAL_SIZE
  | _ => none

/-- The `response_tokens` lookup map (attr_utils.cc lines 82-84). -/
def response_tokens : String → Option ResponseToken
  | "code" => some ResponseToken.CODE
  | "code_details" => some ResponseToken.CODE_DETAILS
  | "flags" => some ResponseToken.FLAGS
  | "grpc_status" => some ResponseToken.GRPC_STATUS
  | "headers" => some ResponseToken.HEADERS
  | "trailers" => some ResponseToken.TRAILERS
  | "size" => some ResponseToken.SIZE
  | "total_size" => some ResponseToken.TOTAL_SIZE
  | _ => none

/-- The `connection_tokens` lookup map (attr_utils.cc lines 86-89). -/
def connection_tokens : String → Option ConnectionToken
  | "id" => some ConnectionToken.ID
  | "mtls" => some ConnectionToken.MTLS
  | "requested_server_name" => some ConnectionToken.REQUESTED_SERVER_NAME
  | "tls_version" => some ConnectionToken.TLS_VERSION
  | "subject_local_certificate" => some ConnectionToken.SUBJECT_LOCAL_CERTIFICATE
  | "subject_peer_certificate" => some ConnectionToken.SUBJECT_PEER_CERTIFICATE
  | "dns_san_local_certificate" => some ConnectionToken.DNS_SAN_LOCAL_CERTIFICATE
  | "dns_san_peer_certificate" => some ConnectionToken.DNS_SAN_PEER_CERTIFICATE
  | "uri_san_local_certificate" => some ConnectionToken.URI_SAN_LOCAL_CERTIFICATE
  | "uri_san_peer_certificate" => some ConnectionToken.URI_SAN_PEER_CERTIFICATE
  | "termination_details" => some ConnectionToken.TERMINATION_DETAILS
  | _ => none

/-- The `upstream_tokens` lookup map (attr_utils.cc lines 91-93). -/
def upstream_tokens : String → Option UpstreamToken
  | "address" => some UpstreamToken.ADDRESS
  | "port" => some UpstreamToken.PORT
  | "tls_version" => some UpstreamToken.TLS_VERSION
  | "subject_local_certificate" => some UpstreamToken.SUBJECT_LOCAL_CERTIFICATE
  | "subject_peer_certificate" => some UpstreamToken.SUBJECT_PEER_CERTIFICATE
  | "dns_san_local_certificate" => some UpstreamToken.DNS_SAN_LOCAL_CERTIFICATE
  | "dns_san_peer_certificate" => some UpstreamToken.DNS_SAN_PEER_CERTIFICATE
  | "uri_san_local_certificate" => some UpstreamToken.URI_SAN_LOCAL_CERTIFICATE
  | "uri_san_peer_certificate" => some UpstreamToken.URI_SAN_PEER_CERTIFICATE
  | "local_address" => some UpstreamToken.LOCAL_ADDRESS
  | "transport_failure_reason" => some UpstreamToken.TRANSPORT_FAILURE_REASON
  | _ => none

/-- `static const std::string HttpProtocolStrings[]` (attr_utils.cc line 37),
indexed by the `Http::Protocol` enum `{Http10, Http11, Http2, Http3}`. -/
inductive HttpProtocol where
  | Http10 | Http11 | Http2 | Http3

/-- The fixed 4-entry protocol string table (attr_utils.cc line 37). -/
def HttpProtocolStrings : HttpProtocol → String
  | HttpProtocol.Http10 => "Http 1.0"
  | HttpProtocol.Http11 => "Http 1.1"
  | HttpProtocol.Http2 => "Http 2"
  | HttpProtocol.Http3 => "Http 3"

/-- The request-header accessors used by `requestSet`.  `getXValue` style
accessors return the header value or the empty string; `Path` and
`ContentLength` return a nullable entry, modelled with `Option`. -/
structure RequestHeaderMap where
  Path : Option String
  hostValue : String
  schemeValue : String
  methodValue : String
  refererValue : String
  userAgentValue : String
  requestIdValue : String
  ContentLength : Option String
  byteSize : Nat

/-- `headers->getPathValue()`: the path header value, empty when unset. -/
def getPathValue (h : RequestHeaderMap) : String := h.Path.getD ""

/-- The `Ssl::ConnectionInfo` accessors read by `connectionSet` and
`upstreamSet`: TLS version, certificate subjects and the SAN lists. -/
structure SslConnectionInfo where
  tlsVersion : String
  subjectLocalCertificate : String
  subjectPeerCertificate : String
  dnsSansLocalCertificate : List String
  dnsSansPeerCertificate : List String
  uriSanLocalCertificate : List String
  uriSanPeerCertificate : List String
  peerCertificatePresented : Bool

/-- `Network::Address::Ip`: only the port is read by this engine. -/
structure IpInfo where
  port : Nat

/-- `Network::Address::Instance`: `asString()` plus a nullable `ip()`. -/
structure AddressInstance where
  asString : String
  ip : Option IpInfo

/-- The read-only `StreamInfo` snapshot consumed by `AttrUtils`, together
with the request-header map installed via `setRequestHeaders`.  Every
nullable accessor is an `Option`; counters are unsigned 64-bit values
represented as `Nat` (all values written by the engine are taken from the
context unmodified, so no wrap-around arithmetic occurs).
`upstreamHost` is a nullable host whose `address()` is itself nullable. -/
structure StreamInfo where
  requestHeaders : Option RequestHeaderMap
  bytesReceived : Nat
  bytesSent : Nat
  protocol : Option HttpProtocol
  requestCompleteFormatted : Option String
  startTimeFormatted : String
  responseCode : Option Nat
  responseCodeDetails : Option String
  responseFlags : Nat
  connectionID : Option Nat
  downstreamSslConnection : Option SslConnectionInfo
  upstreamSslConnection : Option SslConnectionInfo
  requestedServerName : String
  connectionTerminationDetails : Option String
  upstreamHost : Option (Option AddressInstance)
  downstreamLocalAddress : Option AddressInstance
  upstreamLocalAddress : Option AddressInstance
  upstreamTransportFailureReason : String
  dynamicMetadata : List (String × List (String × Value))

/-- One namespace bucket: field name to value, in insertion order. -/
abbrev Fields := List (String × Value)

/-- The `attributes_` output map: namespace name to bucket, in insertion
order (`ProtobufWkt::Map<std::string, ProtobufWkt::Struct>`). -/
abbrev AttrMap := List (String × Fields)

/-- `attributes_.contains(key)`. -/
def mapContains (m : AttrMap) (key : String) : Bool :=
  m.any (fun e => e.1 == key)

/-- `AttrUtils::getOrInsert` (attr_utils.cc lines 620-625).  Note the
condition in the source is `if (attributes_.contains(key))`, so an already
present bucket is RESET to an empty struct, while an absent bucket is
default-inserted by `operator[]`; either way the bucket is empty after the
call. -/
def getOrInsert (m : AttrMap) (key : String) : AttrMap :=
  if mapContains m key then
    m.map (fun e => if e.1 = key then (e.1, []) else e)
  else
    m ++ [(key, [])]

/-- `bucket[field] = value` on a protobuf struct: last write wins. -/
def fieldsSet (fs : Fields) (f : String) (v : Value) : Fields :=
  if fs.any (fun p => p.1 == f) then
    fs.map (fun p => if p.1 = f then (p.1, v) else p)
  else
    fs ++ [(f, v)]

/-- `attr_fields[TOKEN] = value` where `attr_fields` are the fields of the
bucket named `key` (the reference returned by `getOrInsert`). -/
def setField (m : AttrMap) (key f : String) (v : Value) : AttrMap :=
  m.map (fun e => if e.1 = key then (e.1, fieldsSet e.2 f v) else e)

/-- `string_view::find(c)` as used in `tokenizePath`: the index of the
first occurrence, `none` playing the role of `npos`. -/
def cppFind (c : Char) : List Char → Option Nat
  | [] => none
  | x :: xs => if x = c then some 0 else (cppFind c xs).map (fun i => i + 1)

/-- `std::min` on `size_t` where `none` stands for `npos` (the largest
value). -/
def minOpt : Option Nat → Option Nat → Option Nat
  | none, b => b
  | a, none => a
  | some a, some b => some (min a b)

/-- `AttrUtils::tokenizePath` (attr_utils.cc lines 193-208): the root token
ends at the first `.` or NUL; the sub token is the region after it,
length-clamped by `std::min(path.find(0), path.size() - end - 1)` exactly
as in the source. -/
def tokenizePath (path : List Char) : List Char × List Char :=
  let rootEnd : Nat :=
    match minOpt (cppFind '.' path) (cppFind '\x00' path) with
    | some i => i
    | none => path.length
  let rootTok := path.take rootEnd
  let subTok :=
    if rootEnd + 1 < path.length then
      (path.drop (rootEnd + 1)).take
        (match cppFind '\x00' path with
         | some i => min i (path.length - rootEnd - 1)
         | none => path.length - rootEnd - 1)
    else []
  (rootTok, subTok)

/-- `absl::SimpleAtoi<int64_t>`: an optional single sign followed by one or
more decimal digits, consuming the whole string, rejecting values outside
the `int64_t` range. -/
def digitsValGo : List Char → Nat → Option Nat
  | [], acc => some acc
  | c :: cs, acc =>
    if c.isDigit then digitsValGo cs (acc * 10 + (c.toNat - 48)) else none

/-- Digit-string value; `none` on an empty string or a non-digit. -/
def digitsVal : List Char → Option Nat
  | [] => none
  | c :: cs => digitsValGo (c :: cs) 0

/-- `absl::SimpleAtoi` into `int64_t`, see `digitsValGo`. -/
def simpleAtoi (s : String) : Option Int :=
  match s.data with
  | [] => none
  | c :: cs =>
    let signAndDigits : Bool × List Char :=
      if c = '-' then (true, cs)
      else if c = '+' then (false, cs)
      else (false, c :: cs)
    match digitsVal signAndDigits.2 with
    | none => none
    | some n =>
      let v : Int := if signAndDigits.1 then -(n : Int) else (n : Int)
      if v < -(2 ^ 63) then none
      else if (2 ^ 63 - 1 : Int) < v then none
      else some v

/-- `AttrUtils::requestSet` (attr_utils.cc lines 243-336).  The bucket is
get-or-created before the field lookup.  Branch notes:
* URL_PATH (lines 262-268): the source computes
  `end = std::max(path.find(0), path.find(qmark))` on `path`, which here is
  the FIELD token `"url_path"` (not the header value); both finds give
  `npos`, `int end` becomes `-1`, and `substr(0, size_t(-1))` keeps the
  whole header value, so no truncation ever happens.
* PROTOCOL (lines 311-314): `info_.protocol().value()` is read without a
  `has_value()` check; an absent protocol faults (`none`).
* SIZE (lines 321-330): a present but unparseable content-length sets
  nothing (the `else` only covers missing headers/content-length); the
  parsed branch stores an Int64, the fallback an UInt64.
* TOTAL_SIZE (lines 331-334): the source expression
  `info_.bytesReceived() + headers != nullptr ? headers->byteSize() : 0`
  parses as `((bytesReceived + headers) != nullptr) ? byteSize : 0`:
  with headers present the stored value is `byteSize()` alone; with
  headers absent it is `0` when `bytesReceived` is `0` (null + 0 stays
  null) and undefined pointer arithmetic otherwise, modelled as a fault. -/
def requestSet (info : StreamInfo) (path : String) (m : AttrMap) :
    Option AttrMap :=
  let m1 := getOrInsert m "request"
  match request_tokens path with
  | none => some m1
  | some tok =>
    match tok with
    | RequestToken.PATH =>
      match info.requestHeaders with
      | some h => some (setField m1 "request" "path"
          (Value.stringValue (getPathValue h)))
      | none => some m1
    | RequestToken.URL_PATH =>
      match info.requestHeaders with
      | some h =>
        match h.Path with
        | some p => some (setField m1 "request" "url_path"
            (Value.stringValue p))
        | none => some m1
      | none => some m1
    | RequestToken.HOST =>
      match info.requestHeaders with
      | some h => some (setField m1 "request" "host"
          (Value.stringValue h.hostValue))
      | none => some m1
    | RequestToken.SCHEME =>
      match info.requestHeaders with
      | some h => some (setField m1 "request" "scheme"
          (Value.stringValue h.schemeValue))
      | none => some m1
    | RequestToken.METHOD =>
      match info.requestHeaders with
      | some h => some (setField m1 "request" "method"
          (Value.stringValue h.methodValue))
      | none => some m1
    | RequestToken.HEADERS => some m1
    | RequestToken.REFERER =>
      match info.requestHeaders with
      | some h => some (setField m1 "request" "referer"
          (Value.stringValue h.refererValue))
      | none => some m1
    | RequestToken.USERAGENT =>
      match info.requestHeaders with
      | some h => some (setField m1 "request" "useragent"
          (Value.stringValue h.userAgentValue))
      | none => some m1
    | RequestToken.TIME =>
      some (setField m1 "request" "time"
        (Value.stringValue info.startTimeFormatted))
    | RequestToken.ID =>
      match info.requestHeaders with
      | some h => some (setField m1 "request" "id"
          (Value.stringValue h.requestIdValue))
      | none => some m1
    | RequestToken.PROTOCOL =>
      match info.protocol with
      | some p => some (setField m1 "request" "protocol"
          (optionalStringValue (some (HttpProtocolStrings p))))
      | none => none
    | RequestToken.DURATION =>
      match info.requestCompleteFormatted with
      | some d => some (setField m1 "request" "duration"
          (Value.stringValue d))
      | none => some m1
    | RequestToken.SIZE =>
      match info.requestHeaders with
      | some h =>
        match h.ContentLength with
        | some cl =>
          match simpleAtoi cl with
          | some n => some (setField m1 "request" "size"
              (Value.int64Value n))
          | none => some m1
        | none => some (setField m1 "request" "size"
            (Value.uint64Value info.bytesReceived))
      | none => some (setField m1 "request" "size"
          (Value.uint64Value info.bytesReceived))
    | RequestToken.TOTAL_SIZE =>
      match info.requestHeaders with
      | some h => some (setField m1 "request" "total_size"
          (Value.uint64Value h.byteSize))
      | none =>
        if info.bytesReceived = 0 then
          some (setField m1 "request" "total_size" (Value.uint64Value 0))
        else none

/-- `AttrUtils::responseSet` (attr_utils.cc lines 338-377).  The SIZE case
(lines 370-371) has no `break`, so it falls through into TOTAL_SIZE and
also stores `total_size`. -/
def responseSet (info : StreamInfo) (path : String) (m : AttrMap) :
    Option AttrMap :=
  let m1 := getOrInsert m "response"
  match response_tokens path with
  | none => some m1
  | some tok =>
    match tok with
    | ResponseToken.CODE =>
      match info.responseCode with
      | some c => some (setField m1 "response" "code" (Value.uint64Value c))
      | none => some m1
    | ResponseToken.CODE_DETAILS =>
      some (setField m1 "response" "code_details"
        (optionalStringValue info.responseCodeDetails))
    | ResponseToken.FLAGS =>
      some (setField m1 "response" "flags"
        (Value.uint64Value info.responseFlags))
    | ResponseToken.GRPC_STATUS => some m1
    | ResponseToken.HEADERS => some m1
    | ResponseToken.TRAILERS => some m1
    | ResponseToken.SIZE =>
      some (setField
        (setField m1 "response" "size" (Value.uint64Value info.bytesSent))
        "response" "total_size" (Value.uint64Value info.bytesReceived))
    | ResponseToken.TOTAL_SIZE =>
      some (setField m1 "response" "total_size"
        (Value.uint64Value info.bytesReceived))

/-- `AttrUtils::connectionSet` (attr_utils.cc lines 503-580).  MTLS (lines
521-527) executes an unconditional `return;` before its body.  The four SAN
cases call `front()` on the SAN vector without an emptiness check; an empty
vector is out-of-bounds, modelled as a fault (`none`). -/
def connectionSet (info : StreamInfo) (path : String) (m : AttrMap) :
    Option AttrMap :=
  let m1 := getOrInsert m "connection"
  match connection_tokens path with
  | none => some m1
  | some tok =>
    match tok with
    | ConnectionToken.ID =>
      match info.connectionID with
      | some v => some (setField m1 "connection" "id" (Value.uint64Value v))
      | none => some m1
    | ConnectionToken.MTLS => some m1
    | ConnectionToken.REQUESTED_SERVER_NAME =>
      some (setField m1 "connection" "requested_server_name"
        (Value.stringValue info.requestedServerName))
    | ConnectionToken.TLS_VERSION =>
      match info.downstreamSslConnection with
      | some ssl => some (setField m1 "connection" "tls_version"
          (Value.stringValue ssl.tlsVersion))
      | none => some m1
    | ConnectionToken.SUBJECT_LOCAL_CERTIFICATE =>
      match info.downstreamSslConnection with
      | some ssl => some (setField m1 "connection" "subject_local_certificate"
          (Value.stringValue ssl.subjectLocalCertificate))
      | none => some m1
    | ConnectionToken.SUBJECT_PEER_CERTIFICATE =>
      match info.downstreamSslConnection with
      | some ssl => some (setField m1 "connection" "subject_peer_certificate"
          (Value.stringValue ssl.subjectPeerCertificate))
      | none => some m1
    | ConnectionToken.DNS_SAN_LOCAL_CERTIFICATE =>
      match info.downstreamSslConnection with
      | some ssl =>
        match ssl.dnsSansLocalCertificate.head? with
        | some x => some (setField m1 "connection" "dns_san_local_certificate"
            (Value.stringValue x))
        | none => none
      | none => some m1
    | ConnectionToken.DNS_SAN_PEER_CERTIFICATE =>
      match info.downstreamSslConnection with
      | some ssl =>
        match ssl.dnsSansPeerCertificate.head? with
        | some x => some (setField m1 "connection" "dns_san_peer_certificate"
            (Value.stringValue x))
        | none => none
      | none => some m1
    | ConnectionToken.URI_SAN_LOCAL_CERTIFICATE =>
      match info.downstreamSslConnection with
      | some ssl =>
        match ssl.uriSanLocalCertificate.head? with
        | some x => some (setField m1 "connection" "uri_san_local_certificate"
            (Value.stringValue x))
        | none => none
      | none => some m1
    | ConnectionToken.URI_SAN_PEER_CERTIFICATE =>
      match info.downstreamSslConnection with
      | some ssl =>
        match ssl.uriSanPeerCertificate.head? with
        | some x => some (setField m1 "connection" "uri_san_peer_certificate"
            (Value.stringValue x))
        | none => none
      | none => some m1
    | ConnectionToken.TERMINATION_DETAILS =>
      match info.downstreamSslConnection with
      | some _ => some (setField m1 "connection" "termination_details"
          (optionalStringValue info.connectionTerminationDetails))
      | none => some m1

/-- `AttrUtils::upstreamSet` (attr_utils.cc lines 423-501).  Notes: the
SUBJECT_PEER_CERTIFICATE case (lines 460-465) stores the peer subject under
the `subject_local_certificate` key, as in the source; the SAN cases call
`front()` without an emptiness check (fault on empty, `none`). -/
def upstreamSet (info : StreamInfo) (path : String) (m : AttrMap) :
    Option AttrMap :=
  let m1 := getOrInsert m "upstream"
  match upstream_tokens path with
  | none => some m1
  | some tok =>
    match tok with
    | UpstreamToken.ADDRESS =>
      match info.upstreamHost with
      | some h =>
        match h with
        | some addr => some (setField m1 "upstream" "address"
            (Value.stringValue addr.asString))
        | none => some m1
      | none => some m1
    | UpstreamToken.PORT =>
      match info.upstreamHost with
      | some h =>
        match h with
        | some addr =>
          match addr.ip with
          | some ip => some (setField m1 "upstream" "port"
              (Value.uint64Value ip.port))
          | none => some m1
        | none => some m1
      | none => some m1
    | UpstreamToken.TLS_VERSION =>
      match info.upstreamSslConnection with
      | some ssl => some (setField m1 "upstream" "tls_version"
          (Value.stringValue ssl.tlsVersion))
      | none => some m1
    | UpstreamToken.SUBJECT_LOCAL_CERTIFICATE =>
      match info.upstreamSslConnection with
      | some ssl => some (setField m1 "upstream" "subject_local_certificate"
          (Value.stringValue ssl.subjectLocalCertificate))
      | none => some m1
    | UpstreamToken.SUBJECT_PEER_CERTIFICATE =>
      match info.upstreamSslConnection with
      | some ssl => some (setField m1 "upstream" "subject_local_certificate"
          (Value.stringValue ssl.subjectPeerCertificate))
      | none => some m1
    | UpstreamToken.DNS_SAN_LOCAL_CERTIFICATE =>
      match info.upstreamSslConnection with
      | some ssl =>
        match ssl.dnsSansLocalCertificate.head? with
        | some x => some (setField m1 "upstream" "dns_san_local_certificate"
            (Value.stringValue x))
        | none => none
      | none => some m1
    | UpstreamToken.DNS_SAN_PEER_CERTIFICATE =>
      match info.upstreamSslConnection with
      | some ssl =>
        match ssl.dnsSansPeerCertificate.head? with
        | some x => some (setField m1 "upstream" "dns_san_peer_certificate"
            (Value.stringValue x))
        | none => none
      | none => some m1
    | UpstreamToken.URI_SAN_LOCAL_CERTIFICATE =>
      match info.upstreamSslConnection with
      | some ssl =>
        match ssl.uriSanLocalCertificate.head? with
        | some x => some (setField m1 "upstream" "uri_san_local_certificate"
            (Value.stringValue x))
        | none => none
      | none => some m1
    | UpstreamToken.URI_SAN_PEER_CERTIFICATE =>
      match info.upstreamSslConnection with
      | some ssl =>
        match ssl.uriSanPeerCertificate.head? with
        | some x => some (setField m1 "upstream" "uri_san_peer_certificate"
            (Value.stringValue x))
        | none => none
      | none => some m1
    | UpstreamToken.LOCAL_ADDRESS =>
      match info.upstreamLocalAddress with
      | some addr => some (setField m1 "upstream" "local_address"
          (Value.stringValue addr.asString))
      | none => some m1
    | UpstreamToken.TRANSPORT_FAILURE_REASON =>
      some (setField m1 "upstream" "transport_failure_reason"
        (Value.stringValue info.upstreamTransportFailureReason))

/-- `AttrUtils::sourceSet` (attr_utils.cc lines 398-421).  Unlike the other
setters this one inserts the bucket only when absent (a correct
get-or-create); the upstream-host and address guards run before the field
dispatch, and an unknown field is only logged. -/
def sourceSet (info : StreamInfo) (path : String) (m : AttrMap) :
    Option AttrMap :=
  let m1 := if mapContains m "source" then m else m ++ [("source", [])]
  match info.upstreamHost with
  | none => some m1
  | some h =>
    match h with
    | none => some m1
    | some addr =>
      if path = "address" then
        some (setField m1 "source" "address"
          (Value.stringValue addr.asString))
      else if path = "port" then
        match addr.ip with
        | none => some m1
        | some ip => some (setField m1 "source" "port"
            (Value.uint64Value ip.port))
      else some m1

/-- `AttrUtils::destinationSet` (attr_utils.cc lines 379-396): bucket via
`getOrInsert`, then the downstream local address guard, then the field
dispatch by string comparison. -/
def destinationSet (info : StreamInfo) (path : String) (m : AttrMap) :
    Option AttrMap :=
  let m1 := getOrInsert m "destination"
  match info.downstreamLocalAddress with
  | none => some m1
  | some addr =>
    if path = "address" then
      some (setField m1 "destination" "address"
        (Value.stringValue addr.asString))
    else if path = "port" then
      match addr.ip with
      | none => some m1
      | some ip => some (setField m1 "destination" "port"
          (Value.uint64Value ip.port))
    else some m1

/-- `AttrUtils::metadataSet` (attr_utils.cc lines 582-593): only when the
`metadata` bucket is absent, create it with the single fixed key `metadata`
holding a struct that mirrors the dynamic-metadata filter buckets. -/
def metadataSet (info : StreamInfo) (m : AttrMap) : Option AttrMap :=
  if mapContains m "metadata" then some m
  else
    some (m ++ [("metadata",
      [("metadata", Value.structValue
        (info.dynamicMetadata.map
          (fun kv => (kv.1, Value.structValue kv.2))))])])

/-- `AttrUtils::filterStateSet` (attr_utils.cc lines 606-608): intentionally
unimplemented, only a debug log. -/
def filterStateSet (m : AttrMap) : Option AttrMap := some m

/-- `AttrUtils::findValue` (attr_utils.cc lines 210-241): namespace lookup
in `property_tokens`, then dispatch; an unknown namespace is logged and
skipped.  For `metadata` and `filter_state` a non-empty sub token resolves
to nothing. -/
def findValue (info : StreamInfo) (root_tok sub_tok : String) (m : AttrMap) :
    Option AttrMap :=
  match property_tokens root_tok with
  | none => some m
  | some tok =>
    match tok with
    | PropertyToken.REQUEST => requestSet info sub_tok m
    | PropertyToken.RESPONSE => responseSet info sub_tok m
    | PropertyToken.CONNECTION => connectionSet info sub_tok m
    | PropertyToken.UPSTREAM => upstreamSet info sub_tok m
    | PropertyToken.SOURCE => sourceSet info sub_tok m
    | PropertyToken.DESTINATION => destinationSet info sub_tok m
    | PropertyToken.METADATA =>
      if sub_tok = "" then metadataSet info m else some m
    | PropertyToken.FILTER_STATE =>
      if sub_tok = "" then filterStateSet m else some m

/-- One iteration of the loop in `AttrUtils::build`: tokenize the supplied
path and dispatch. -/
def resolveOne (info : StreamInfo) (m : AttrMap) (s : String) :
    Option AttrMap :=
  let t := tokenizePath s.data
  findValue info (String.mk t.1) (String.mk t.2) m

/-- The loop of `AttrUtils::build` over the `specified_` paths; a runtime
fault in any step aborts the whole build. -/
def buildGo (info : StreamInfo) (m : AttrMap) : List String → Option AttrMap
  | [] => some m
  | p :: ps =>
    match resolveOne info m p with
    | none => none
    | some m2 => buildGo info m2 ps

/-- `AttrUtils::build` (attr_utils.cc lines 185-191) on a fresh
`attributes_` map. -/
def build (info : StreamInfo) (specified : List String) : Option AttrMap :=
  buildGo info [] specified

/-! ## Helper lemmas and shared test contexts -/

/-- A build over a single path is one dispatch step. -/
theorem build_one (info : StreamInfo) (p : String) :
    build info [p] = resolveOne info [] p := by
  unfold build buildGo
  cases resolveOne info [] p <;> rfl

theorem cppFind_of_not_mem (c : Char) :
    ∀ l : List Char, c ∉ l → cppFind c l = none := by
  intro l
  induction l with
  | nil => intro _; rfl
  | cons x xs ih =>
    intro h
    have hx : ¬(x = c) := by
      intro e
      exact h (e ▸ List.mem_cons_self x xs)
    have hxs : c ∉ xs := fun hm => h (List.mem_cons_of_mem x hm)
    simp [cppFind, hx, ih hxs]

theorem minOpt_none_right (a : Option Nat) : minOpt a none = a := by
  cases a <;> rfl

/-- Index of the first dot, or the length when there is none. -/
def dotIdx (l : List Char) : Nat :=
  match cppFind '.' l with
  | some i => i
  | none => l.length

theorem cppFind_le_length (c : Char) :
    ∀ l : List Char, ∀ i, cppFind c l = some i → i < l.length := by
  intro l
  induction l with
  | nil => intro i h; cases h
  | cons x xs ih =>
    intro i h
    by_cases hx : x = c
    · simp [cppFind, hx] at h
      simp [List.length_cons]
      omega
    · simp [cppFind, hx] at h
      obtain ⟨j, hj, rfl⟩ := h
      have := ih j hj
      simp [List.length_cons]
      omega

/-- On NUL-free input the source tokenizer splits at the first dot: take up
to it, drop past it (the length clamp in the sub-token is inert). -/
theorem tokenizePath_no_nul (l : List Char) (h : '\x00' ∉ l) :
    tokenizePath l = (l.take (dotIdx l), l.drop (dotIdx l + 1)) := by
  unfold tokenizePath
  rw [cppFind_of_not_mem _ _ h, minOpt_none_right]
  unfold dotIdx
  cases hf : cppFind '.' l with
  | none =>
    simp only [Prod.mk.injEq]
    refine ⟨trivial, ?_⟩
    have hlt : ¬ (l.length + 1 < l.length) := by omega
    rw [if_neg hlt, List.drop_eq_nil_of_le (by omega)]
  | some i =>
    simp only [Prod.mk.injEq]
    refine ⟨trivial, ?_⟩
    by_cases hc : i + 1 < l.length
    · rw [if_pos hc]
      have hlen : (l.drop (i + 1)).length = l.length - i - 1 := by
        simp [List.length_drop]
        omega
      rw [← hlen, List.take_length]
    · rw [if_neg hc, List.drop_eq_nil_of_le (by omega)]

/-- Modelled from the spec (P1, section 4.1): split once on the first dot;
the namespace is everything before it (the whole string when there is no
dot) and the field everything after it (empty when there is no dot). -/
def specSplit : List Char → List Char × List Char
  | [] => ([], [])
  | c :: cs =>
    if c = '.' then ([], cs)
    else
      let p := specSplit cs
      (c :: p.1, p.2)

theorem takeDrop_eq_specSplit :
    ∀ l : List Char,
      (l.take (dotIdx l), l.drop (dotIdx l + 1)) = specSplit l := by
  intro l
  induction l with
  | nil => rfl
  | cons c cs ih =>
    by_cases hc : c = '.'
    · subst hc
      simp [specSplit, dotIdx, cppFind]
    · have hfind : cppFind '.' (c :: cs)
          = (cppFind '.' cs).map (fun i => i + 1) := by
        simp [cppFind, hc]
      have hidx : dotIdx (c :: cs) = dotIdx cs + 1 := by
        unfold dotIdx
        rw [hfind]
        cases cppFind '.' cs <;> simp
      rw [hidx]
      simp only [List.take_succ_cons, List.drop_succ_cons]
      simp [specSplit, hc, ← ih]

theorem cppFind_append_self (c : Char) :
    ∀ l : List Char, c ∉ l → cppFind c (l ++ [c]) = some l.length := by
  intro l
  induction l with
  | nil => intro _; simp [cppFind]
  | cons x xs ih =>
    intro h
    have hx : ¬(x = c) := by
      intro e
      exact h (e ▸ List.mem_cons_self x xs)
    have hxs : c ∉ xs := fun hm => h (List.mem_cons_of_mem x hm)
    simp [cppFind, hx, ih hxs]

/-- `requestSet` on the `size` field, with the dispatch already resolved. -/
theorem requestSet_size_shape (info : StreamInfo) (m : AttrMap) :
    requestSet info "size" m
      = (match info.requestHeaders with
         | some h =>
           (match h.ContentLength with
            | some cl =>
              (match simpleAtoi cl with
               | some n => some (setField (getOrInsert m "request") "request"
                   "size" (Value.int64Value n))
               | none => some (getOrInsert m "request"))
            | none => some (setField (getOrInsert m "request") "request"
                "size" (Value.uint64Value info.bytesReceived)))
         | none => some (setField (getOrInsert m "request") "request"
             "size" (Value.uint64Value info.bytesReceived))) := rfl

theorem resolveOne_request_size (info : StreamInfo) (m : AttrMap) :
    resolveOne info m "request.size" = requestSet info "size" m := rfl

/-- A snapshot with every optional absent and every counter zero; variants
for the concrete scenarios are built from it. -/
def info0 : StreamInfo :=
  { requestHeaders := none
    bytesReceived := 0
    bytesSent := 0
    protocol := none
    requestCompleteFormatted := none
    startTimeFormatted := ""
    responseCode := none
    responseCodeDetails := none
    responseFlags := 0
    connectionID := none
    downstreamSslConnection := none
    upstreamSslConnection := none
    requestedServerName := ""
    connectionTerminationDetails := none
    upstreamHost := none
    downstreamLocalAddress := none
    upstreamLocalAddress := none
    upstreamTransportFailureReason := ""
    dynamicMetadata := [] }

/-- A request-header map with every header empty or absent. -/
def hdr0 : RequestHeaderMap :=
  { Path := none
    hostValue := ""
    schemeValue := ""
    methodValue := ""
    refererValue := ""
    userAgentValue := ""
    requestIdValue := ""
    ContentLength := none
    byteSize := 0 }

/-- A TLS session snapshot with empty subjects and empty SAN lists. -/
def ssl0 : SslConnectionInfo :=
  { tlsVersion := ""
    subjectLocalCertificate := ""
    subjectPeerCertificate := ""
    dnsSansLocalCertificate := []
    dnsSansPeerCertificate := []
    uriSanLocalCertificate := []
    uriSanPeerCertificate := []
    peerCertificatePresented := false }

/-! ## Claim C1 -/

/-- C1: for every context whose connection id is 123, resolving the path
list ["connection.id"] produces exactly one top-level `connection` bucket
whose single field `id` holds the unsigned 64-bit value 123. -/
theorem scenarioA_connection_id (info : StreamInfo)
    (h : info.connectionID = some 123) :
    build info ["connection.id"]
      = some [("connection", [("id", Value.uint64Value 123)])] := by
  obtain ⟨hd, br, bs, pr, rc, st, rcode, rcd, rf, cid, dssl, ussl, rsn, ctd,
    uh, dla, ula, utfr, dm⟩ := info
  have h2 : cid = some 123 := h
  subst h2
  rfl

/-- C1 witness: the theorem applied to a concrete context. -/
theorem scenarioA_connection_id_witness :
    build { info0 with connectionID := some 123 } ["connection.id"]
      = some [("connection", [("id", Value.uint64Value 123)])] :=
  scenarioA_connection_id { info0 with connectionID := some 123 } rfl

/-! ## Claim C2 -/

/-- A context with a connection id and a requested server name, used to
resolve two paths of the `connection` namespace in one pass. -/
def infoC2 : StreamInfo :=
  { info0 with connectionID := some 7, requestedServerName := "svc.example" }

/-- C2 evaluation at the failing input: resolving two recognized,
resolvable `connection` fields in one pass yields a bucket holding ONLY the
second field.  `getOrInsert` (attr_utils.cc lines 620-625) tests
`if (attributes_.contains(key))` and then RESETS the bucket to an empty
struct, so the second path discards the `id` field stored by the first,
contradicting the claim that both fields survive. -/
theorem getOrInsert_discards_prior_fields :
    build infoC2 ["connection.id", "connection.requested_server_name"]
      = some [("connection",
          [("requested_server_name", Value.stringValue "svc.example")])]
    ∧ build infoC2 ["connection.id", "connection.requested_server_name"]
      ≠ some [("connection",
          [("id", Value.uint64Value 7),
           ("requested_server_name", Value.stringValue "svc.example")])] := by
  refine ⟨rfl, ?_⟩
  intro h
  rw [show build infoC2 ["connection.id", "connection.requested_server_name"]
      = some [("connection",
          [("requested_server_name", Value.stringValue "svc.example")])]
    from rfl] at h
  simp at h

/-! ## Claim C3 -/

/-- A context with five raw bytes received and a present request-header map
whose total byte size is ten. -/
def infoC3 : StreamInfo :=
  { info0 with requestHeaders := some { hdr0 with byteSize := 10 },
               bytesReceived := 5 }

/-- C3 evaluation at the failing input: with 5 bytes received and a header
byte size of 10 the engine stores UInt64 10, not UInt64 15.  In
`info_.bytesReceived() + headers != nullptr ? headers->byteSize() : 0`
(attr_utils.cc lines 331-334) the `+` binds before `!=` and `?:`, so with
headers present the stored value is `headers->byteSize()` alone and the
received-bytes counter is never added; with headers absent and a non-zero
counter the expression performs arithmetic on a null pointer (a fault,
modelled `none`). -/
theorem total_size_precedence :
    build infoC3 ["request.total_size"]
      = some [("request", [("total_size", Value.uint64Value 10)])]
    ∧ build infoC3 ["request.total_size"]
      ≠ some [("request", [("total_size", Value.uint64Value 15)])]
    ∧ build { info0 with bytesReceived := 7 } ["request.total_size"]
      = none := by
  refine ⟨rfl, ?_, rfl⟩
  intro h
  rw [show build infoC3 ["request.total_size"]
      = some [("request", [("total_size", Value.uint64Value 10)])]
    from rfl] at h
  simp at h

/-! ## Claim C4 -/

/-- A context whose request path header carries a query string. -/
def infoC4 : StreamInfo :=
  { info0 with requestHeaders := some { hdr0 with Path := some "/foo?bar=1" } }

/-- C4 evaluation at the failing input: `request.url_path` for path header
"/foo?bar=1" yields the whole value "/foo?bar=1", not the prefix "/foo"
before the first question mark.  In the URL_PATH branch (attr_utils.cc
lines 262-268) `end = std::max(path.find(0), path.find(qmark))` scans
`path`, which is the FIELD token "url_path" (not the header value), so
both finds return `npos`, `int end` becomes -1 and
`substr(0, size_t(-1))` keeps the entire header value: nothing is ever
truncated. -/
theorem url_path_not_truncated :
    build infoC4 ["request.url_path"]
      = some [("request", [("url_path", Value.stringValue "/foo?bar=1")])]
    ∧ build infoC4 ["request.url_path"]
      ≠ some [("request", [("url_path", Value.stringValue "/foo")])] := by
  refine ⟨rfl, ?_⟩
  intro h
  rw [show build infoC4 ["request.url_path"]
      = some [("request", [("url_path", Value.stringValue "/foo?bar=1")])]
    from rfl] at h
  simp at h

/-! ## Claim C5 -/

/-- A context negotiated over HTTP/2. -/
def infoC5 : StreamInfo := { info0 with protocol := some HttpProtocol.Http2 }

/-- C5 evaluation: with HTTP/2 the engine stores String "Http 2" from the
fixed 4-entry table, as the claim says; but with no protocol the PROTOCOL
branch (attr_utils.cc lines 311-314) evaluates
`info_.protocol().value()` without a `has_value()` check, so resolution
faults (modelled `none`) instead of omitting the field. -/
theorem protocol_http2_and_absent :
    build infoC5 ["request.protocol"]
      = some [("request", [("protocol", Value.stringValue "Http 2")])]
    ∧ build info0 ["request.protocol"] = none :=
  ⟨rfl, rfl⟩

/-! ## Claim C6 -/

/-- The SAN list a given SAN field name reads from a TLS session snapshot
(used to state the amended claim uniformly over the four SAN fields). -/
def sanList : String → SslConnectionInfo → List String
  | "dns_san_local_certificate", ssl => ssl.dnsSansLocalCertificate
  | "dns_san_peer_certificate", ssl => ssl.dnsSansPeerCertificate
  | "uri_san_local_certificate", ssl => ssl.uriSanLocalCertificate
  | "uri_san_peer_certificate", ssl => ssl.uriSanPeerCertificate
  | _, _ => []

/-- The four SAN certificate field names shared by the `connection` and
`upstream` namespaces. -/
def sanFieldNames : List String :=
  ["dns_san_local_certificate", "dns_san_peer_certificate",
   "uri_san_local_certificate", "uri_san_peer_certificate"]

/-- A context with a downstream TLS session whose SAN lists are all empty. -/
def infoC6 : StreamInfo := { info0 with downstreamSslConnection := some ssl0 }

/-- C6 counterexample: with a downstream TLS session present but an empty
DNS SAN list, resolving `connection.dns_san_local_certificate` faults
(`front()` on an empty vector, attr_utils.cc lines 550-555) instead of
completing without failure as the claim states. -/
theorem san_empty_front_fault :
    build infoC6 ["connection.dns_san_local_certificate"] = none := rfl

/-- C6 amended: for each of the four SAN fields, in both the `connection`
and the `upstream` namespace, resolution is safe and omits the field when
the corresponding TLS session is absent, and stores String of the FIRST
entry of the corresponding SAN list when the session is present and that
list is non-empty; an empty SAN list is not handled (see the
counterexample). -/
theorem san_first_entry_no_panic :
    ∀ f ∈ sanFieldNames,
      (∀ info : StreamInfo, info.downstreamSslConnection = none →
        build info ["connection." ++ f] = some [("connection", [])]) ∧
      (∀ (info : StreamInfo) (ssl : SslConnectionInfo) (x : String)
          (rest : List String),
        info.downstreamSslConnection = some ssl → sanList f ssl = x :: rest →
        build info ["connection." ++ f]
          = some [("connection", [(f, Value.stringValue x)])]) ∧
      (∀ info : StreamInfo, info.upstreamSslConnection = none →
        build info ["upstream." ++ f] = some [("upstream", [])]) ∧
      (∀ (info : StreamInfo) (ssl : SslConnectionInfo) (x : String)
          (rest : List String),
        info.upstreamSslConnection = some ssl → sanList f ssl = x :: rest →
        build info ["upstream." ++ f]
          = some [("upstream", [(f, Value.stringValue x)])]) := by
  intro f hf
  simp only [sanFieldNames, List.mem_cons, List.not_mem_nil, or_false] at hf
  rcases hf with rfl | rfl | rfl | rfl
  · refine ⟨?_, ?_, ?_, ?_⟩
    · intro info h
      obtain ⟨hd, br, bs, pr, rc, st, rcode, rcd, rf, cid, dssl, ussl, rsn,
        ctd, uh, dla, ula, utfr, dm⟩ := info
      have h2 : dssl = none := h
      subst h2
      rfl
    · intro info ssl x rest h1 h2
      obtain ⟨hd, br, bs, pr, rc, st, rcode, rcd, rf, cid, dssl, ussl, rsn,
        ctd, uh, dla, ula, utfr, dm⟩ := info
      have h3 : dssl = some ssl := h1
      subst h3
      obtain ⟨tv, sl, sp, dl, dp, ul, up, pc⟩ := ssl
      have h4 : dl = x :: rest := h2
      subst h4
      rfl
    · intro info h
      obtain ⟨hd, br, bs, pr, rc, st, rcode, rcd, rf, cid, dssl, ussl, rsn,
        ctd, uh, dla, ula, utfr, dm⟩ := info
      have h2 : ussl = none := h
      subst h2
      rfl
    · intro info ssl x rest h1 h2
      obtain ⟨hd, br, bs, pr, rc, st, rcode, rcd, rf, cid, dssl, ussl, rsn,
        ctd, uh, dla, ula, utfr, dm⟩ := info
      have h3 : ussl = some ssl := h1
      subst h3
      obtain ⟨tv, sl, sp, dl, dp, ul, up, pc⟩ := ssl
      have h4 : dl = x :: rest := h2
      subst h4
      rfl
  · refine ⟨?_, ?_, ?_, ?_⟩
    · intro info h
      obtain ⟨hd, br, bs, pr, rc, st, rcode, rcd, rf, cid, dssl, ussl, rsn,
        ctd, uh, dla, ula, utfr, dm⟩ := info
      have h2 : dssl = none := h
      subst h2
      rfl
    · intro info ssl x rest h1 h2
      obtain ⟨hd, br, bs, pr, rc, st, rcode, rcd, rf, cid, dssl, ussl, rsn,
        ctd, uh, dla, ula, utfr, dm⟩ := info
      have h3 : dssl = some ssl := h1
      subst h3
      obtain ⟨tv, sl, sp, dl, dp, ul, up, pc⟩ := ssl
      have h4 : dp = x :: rest := h2
      subst h4
      rfl
    · intro info h
      obtain ⟨hd, br, bs, pr, rc, st, rcode, rcd, rf, cid, dssl, ussl, rsn,
        ctd, uh, dla, ula, utfr, dm⟩ := info
      have h2 : ussl = none := h
      subst h2
      rfl
    · intro info ssl x rest h1 h2
      obtain ⟨hd, br, bs, pr, rc, st, rcode, rcd, rf, cid, dssl, ussl, rsn,
        ctd, uh, dla, ula, utfr, dm⟩ := info
      have h3 : ussl = some ssl := h1
      subst h3
      obtain ⟨tv, sl, sp, dl, dp, ul, up, pc⟩ := ssl
      have h4 : dp = x :: rest := h2
      subst h4
      rfl
  · refine ⟨?_, ?_, ?_, ?_⟩
    · intro info h
      obtain ⟨hd, br, bs, pr, rc, st, rcode, rcd, rf, cid, dssl, ussl, rsn,
        ctd, uh, dla, ula, utfr, dm⟩ := info
      have h2 : dssl = none := h
      subst h2
      rfl
    · intro info ssl x rest h1 h2
      obtain ⟨hd, br, bs, pr, rc, st, rcode, rcd, rf, cid, dssl, ussl, rsn,
        ctd, uh, dla, ula, utfr, dm⟩ := info
      have h3 : dssl = some ssl := h1
      subst h3
      obtain ⟨tv, sl, sp, dl, dp, ul, up, pc⟩ := ssl
      have h4 : ul = x :: rest := h2
      subst h4
      rfl
    · intro info h
      obtain ⟨hd, br, bs, pr, rc, st, rcode, rcd, rf, cid, dssl, ussl, rsn,
        ctd, uh, dla, ula, utfr, dm⟩ := info
      have h2 : ussl = none := h
      subst h2
      rfl
    · intro info ssl x rest h1 h2
      obtain ⟨hd, br, bs, pr, rc, st, rcode, rcd, rf, cid, dssl, ussl, rsn,
        ctd, uh, dla, ula, utfr, dm⟩ := info
      have h3 : ussl = some ssl := h1
      subst h3
      obtain ⟨tv, sl, sp, dl, dp, ul, up, pc⟩ := ssl
      have h4 : ul = x :: rest := h2
      subst h4
      rfl
  · refine ⟨?_, ?_, ?_, ?_⟩
    · intro info h
      obtain ⟨hd, br, bs, pr, rc, st, rcode, rcd, rf, cid, dssl, ussl, rsn,
        ctd, uh, dla, ula, utfr, dm⟩ := info
      have h2 : dssl = none := h
      subst h2
      rfl
    · intro info ssl x rest h1 h2
      obtain ⟨hd, br, bs, pr, rc, st, rcode, rcd, rf, cid, dssl, ussl, rsn,
        ctd, uh, dla, ula, utfr, dm⟩ := info
      have h3 : dssl = some ssl := h1
      subst h3
      obtain ⟨tv, sl, sp, dl, dp, ul, up, pc⟩ := ssl
      have h4 : up = x :: rest := h2
      subst h4
      rfl
    · intro info h
      obtain ⟨hd, br, bs, pr, rc, st, rcode, rcd, rf, cid, dssl, ussl, rsn,
        ctd, uh, dla, ula, utfr, dm⟩ := info
      have h2 : ussl = none := h
      subst h2
      rfl
    · intro info ssl x rest h1 h2
      obtain ⟨hd, br, bs, pr, rc, st, rcode, rcd, rf, cid, dssl, ussl, rsn,
        ctd, uh, dla, ula, utfr, dm⟩ := info
      have h3 : ussl = some ssl := h1
      subst h3
      obtain ⟨tv, sl, sp, dl, dp, ul, up, pc⟩ := ssl
      have h4 : up = x :: rest := h2
      subst h4
      rfl

/-- A TLS session snapshot with a one-element DNS SAN list. -/
def sslOneSan : SslConnectionInfo :=
  { ssl0 with dnsSansLocalCertificate := ["a.example"] }

/-- A context carrying `sslOneSan` as the downstream TLS session. -/
def infoOneSan : StreamInfo :=
  { info0 with downstreamSslConnection := some sslOneSan }

/-- C6 witness: the amended theorem applied to a concrete context with a
one-element DNS SAN list. -/
theorem san_first_entry_no_panic_witness :
    build infoOneSan ["connection.dns_san_local_certificate"]
      = some [("connection",
          [("dns_san_local_certificate", Value.stringValue "a.example")])] :=
  ((san_first_entry_no_panic "dns_san_local_certificate" (by
      simp [sanFieldNames])).2.1)
    infoOneSan sslOneSan "a.example" [] rfl rfl

/-! ## Claim C7 -/

/-- A header map whose content-length header is the non-numeric "abc". -/
def hdrBadLen : RequestHeaderMap := { hdr0 with ContentLength := some "abc" }

/-- A context with 17 raw bytes received and a non-numeric content-length. -/
def infoBadLen : StreamInfo :=
  { info0 with requestHeaders := some hdrBadLen, bytesReceived := 17 }

/-- A header map whose content-length header is "42". -/
def hdrLen42 : RequestHeaderMap := { hdr0 with ContentLength := some "42" }

/-- A context with 17 raw bytes received and content-length "42". -/
def infoLen42 : StreamInfo :=
  { info0 with requestHeaders := some hdrLen42, bytesReceived := 17 }

/-- C7 counterexample: with a present but non-numeric content-length the
SIZE branch (attr_utils.cc lines 321-330) sets NOTHING (the `else` arm
covers only missing headers or a missing content-length header), so the
field is omitted and the received-bytes fallback the claim promises never
happens; and with content-length "42" the stored value is Int64 42
(`ExprValueUtil::int64Value`, line 325), not the UInt64 42 the claim
states. -/
theorem request_size_coercion_counterexample :
    build infoBadLen ["request.size"] = some [("request", [])]
    ∧ build infoBadLen ["request.size"]
      ≠ some [("request", [("size", Value.uint64Value 17)])]
    ∧ build infoLen42 ["request.size"]
      = some [("request", [("size", Value.int64Value 42)])]
    ∧ build infoLen42 ["request.size"]
      ≠ some [("request", [("size", Value.uint64Value 42)])] := by
  refine ⟨rfl, ?_, rfl, ?_⟩
  · intro h
    rw [show build infoBadLen ["request.size"] = some [("request", [])]
      from rfl] at h
    simp at h
  · intro h
    rw [show build infoLen42 ["request.size"]
        = some [("request", [("size", Value.int64Value 42)])] from rfl] at h
    simp at h

/-- C7 amended: `request.size` stores Int64 of the parsed content-length
when the header map and a parseable content-length are present; it stores
UInt64 of the received-bytes counter when the header map is absent or the
content-length header is absent; and it stores nothing (empty `request`
bucket) when a content-length header is present but unparseable. -/
theorem request_size_amended :
    (∀ (info : StreamInfo) (hdr : RequestHeaderMap) (cl : String) (n : Int),
      info.requestHeaders = some hdr → hdr.ContentLength = some cl →
      simpleAtoi cl = some n →
      build info ["request.size"]
        = some [("request", [("size", Value.int64Value n)])]) ∧
    (∀ (info : StreamInfo) (hdr : RequestHeaderMap),
      info.requestHeaders = some hdr → hdr.ContentLength = none →
      build info ["request.size"]
        = some [("request",
            [("size", Value.uint64Value info.bytesReceived)])]) ∧
    (∀ info : StreamInfo, info.requestHeaders = none →
      build info ["request.size"]
        = some [("request",
            [("size", Value.uint64Value info.bytesReceived)])]) ∧
    (∀ (info : StreamInfo) (hdr : RequestHeaderMap) (cl : String),
      info.requestHeaders = some hdr → hdr.ContentLength = some cl →
      simpleAtoi cl = none →
      build info ["request.size"] = some [("request", [])]) := by
  refine ⟨?_, ?_, ?_, ?_⟩
  · intro info hdr cl n h1 h2 h3
    rw [build_one, resolveOne_request_size, requestSet_size_shape]
    simp only [h1, h2, h3]
    rfl
  · intro info hdr h1 h2
    rw [build_one, resolveOne_request_size, requestSet_size_shape]
    simp only [h1, h2]
    rfl
  · intro info h1
    rw [build_one, resolveOne_request_size, requestSet_size_shape]
    simp only [h1]
    rfl
  · intro info hdr cl h1 h2 h3
    rw [build_one, resolveOne_request_size, requestSet_size_shape]
    simp only [h1, h2, h3]
    rfl

/-- C7 witness: the amended theorem applied to the concrete context with
content-length "42". -/
theorem request_size_amended_witness :
    build infoLen42 ["request.size"]
      = some [("request", [("size", Value.int64Value 42)])] :=
  request_size_amended.1 infoLen42 hdrLen42 "42" 42 rfl rfl rfl

/-! ## Claim C8 -/

/-- C8 counterexample: a recognized namespace with an unrecognized field
does NOT leave the output map unchanged: `requestSet` calls `getOrInsert`
BEFORE the field lookup (attr_utils.cc lines 243-250), so resolving
`request.bogus` on an empty map creates an empty `request` bucket. -/
theorem unknown_field_creates_bucket :
    build info0 ["request.bogus"] = some [("request", [])]
    ∧ build info0 ["request.bogus"] ≠ some [] := by
  refine ⟨rfl, ?_⟩
  intro h
  rw [show build info0 ["request.bogus"] = some [("request", [])]
    from rfl] at h
  simp at h

/-- C8 amended: a path whose namespace is not recognized by
`property_tokens` leaves the output map unchanged and surfaces no error.
A path with a recognized namespace and an unrecognized field surfaces no
error and adds no field entry, but its effect on the bucket differs by
namespace: the request, response, connection, upstream and destination
resolvers get-or-create (and thereby reset) their bucket before the field
lookup; the source resolver inserts its bucket only when it is absent
(never resetting an existing one); and `metadata` or `filter_state` paths
with a non-empty field leave the map unchanged entirely (findValue returns
`nullValue` without touching the map, attr_utils.cc lines 230-239). -/
theorem unknown_path_amended :
    (∀ (info : StreamInfo) (ns sub : String) (m : AttrMap),
      property_tokens ns = none → findValue info ns sub m = some m) ∧
    (∀ (info : StreamInfo) (sub : String) (m : AttrMap),
      request_tokens sub = none →
      requestSet info sub m = some (getOrInsert m "request")) ∧
    (∀ (info : StreamInfo) (sub : String) (m : AttrMap),
      response_tokens sub = none →
      responseSet info sub m = some (getOrInsert m "response")) ∧
    (∀ (info : StreamInfo) (sub : String) (m : AttrMap),
      connection_tokens sub = none →
      connectionSet info sub m = some (getOrInsert m "connection")) ∧
    (∀ (info : StreamInfo) (sub : String) (m : AttrMap),
      upstream_tokens sub = none →
      upstreamSet info sub m = some (getOrInsert m "upstream")) ∧
    (∀ (info : StreamInfo) (sub : String) (m : AttrMap),
      sub ≠ "address" → sub ≠ "port" →
      destinationSet info sub m = some (getOrInsert m "destination")) ∧
    (∀ (info : StreamInfo) (sub : String) (m : AttrMap),
      sub ≠ "address" → sub ≠ "port" →
      sourceSet info sub m
        = some (if mapContains m "source" then m
                else m ++ [("source", [])])) ∧
    (∀ (info : StreamInfo) (sub : String) (m : AttrMap),
      sub ≠ "" → findValue info "metadata" sub m = some m) ∧
    (∀ (info : StreamInfo) (sub : String) (m : AttrMap),
      sub ≠ "" → findValue info "filter_state" sub m = some m) := by
  refine ⟨?_, ?_, ?_, ?_, ?_, ?_, ?_, ?_, ?_⟩
  · intro info ns sub m h
    unfold findValue
    rw [h]
  · intro info sub m h
    unfold requestSet
    rw [h]
  · intro info sub m h
    unfold responseSet
    rw [h]
  · intro info sub m h
    unfold connectionSet
    rw [h]
  · intro info sub m h
    unfold upstreamSet
    rw [h]
  · intro info sub m h1 h2
    unfold destinationSet
    cases info.downstreamLocalAddress with
    | none => rfl
    | some addr => simp only [if_neg h1, if_neg h2]
  · intro info sub m h1 h2
    unfold sourceSet
    cases info.upstreamHost with
    | none => rfl
    | some h =>
      cases h with
      | none => rfl
      | some addr => simp only [if_neg h1, if_neg h2]
  · intro info sub m h
    show (if sub = "" then metadataSet info m else some m) = some m
    rw [if_neg h]
  · intro info sub m h
    show (if sub = "" then filterStateSet m else some m) = some m
    rw [if_neg h]

/-- C8 witness: the amended theorem applied to the unrecognized namespace
"bogus", to the `destination` resolver with the unrecognized field "bogus",
and to a `metadata` path with the non-empty field "bogus". -/
theorem unknown_path_amended_witness :
    findValue info0 "bogus" "x" [] = some []
    ∧ destinationSet info0 "bogus" [] = some (getOrInsert [] "destination")
    ∧ findValue info0 "metadata" "bogus" [] = some [] :=
  ⟨unknown_path_amended.1 info0 "bogus" "x" [] rfl,
   unknown_path_amended.2.2.2.2.2.1 info0 "bogus" [] (by decide) (by decide),
   unknown_path_amended.2.2.2.2.2.2.2.1 info0 "bogus" [] (by decide)⟩

/-! ## Claim C9 -/

/-- C9 counterexample: on the input "a NUL . b" the tokenizer truncates the
scan at the NUL (`std::min(path.find(dot), path.find(0))`, attr_utils.cc
line 196) and clamps the sub-token length with the absolute NUL position,
producing namespace "a" and field ".", not the namespace "a NUL" before
the first dot and field "b" the claim describes. -/
theorem tokenizePath_nul_counterexample :
    tokenizePath ['a', '\x00', '.', 'b'] = (['a'], ['.'])
    ∧ tokenizePath ['a', '\x00', '.', 'b'] ≠ (['a', '\x00'], ['b']) := by
  constructor
  · decide
  · decide

/-- C9 amended: on every NUL-free input string the tokenizer totally
returns the pair whose namespace is the substring before the first dot
(the whole string when there is none) and whose field is everything after
that first dot (empty when there is none) — `specSplit`, written from the
spec's words. -/
theorem tokenizePath_total_split (l : List Char) (h : '\x00' ∉ l) :
    tokenizePath l = specSplit l :=
  (tokenizePath_no_nul l h).trans (takeDrop_eq_specSplit l)

/-- C9 witness: the amended theorem applied to the concrete input "ab.cd". -/
theorem tokenizePath_total_split_witness :
    tokenizePath "ab.cd".data = specSplit "ab.cd".data :=
  tokenizePath_total_split "ab.cd".data (by decide)

/-! ## Claim C10 -/

/-- C10 counterexample: an embedded NUL refutes the claim as stated.  The
path "a NUL b" contains no dot at all, yet its field is "b" (non-empty),
because the root scan stops at the NUL (attr_utils.cc line 196) and the
remainder becomes the sub token; and in "a NUL ." the first dot is the
final character, yet the field is "." rather than empty. -/
theorem trailing_dot_nul_counterexample :
    tokenizePath ['a', '\x00', 'b'] = (['a'], ['b'])
    ∧ (tokenizePath ['a', '\x00', 'b']).2 ≠ []
    ∧ tokenizePath ['a', '\x00', '.'] = (['a'], ['.'])
    ∧ (tokenizePath ['a', '\x00', '.']).2 ≠ [] := by
  refine ⟨by decide, by decide, by decide, by decide⟩

/-- C10 amended: for every NUL-free, dot-free namespace name, the
trailing-dot path and the bare path both tokenize to the (namespace,
empty-field) pair — so a NUL-free path with no dot, or whose first dot is
its final character, gets an empty field — and consequently `metadata.`
and `filter_state.` dispatch exactly like `metadata` and `filter_state`
(whole-namespace resolution). -/
theorem trailing_dot_whole_namespace :
    (∀ l : List Char, '.' ∉ l → '\x00' ∉ l →
      tokenizePath (l ++ ['.']) = (l, []) ∧ tokenizePath l = (l, [])) ∧
    (∀ (info : StreamInfo) (m : AttrMap),
      resolveOne info m "metadata." = resolveOne info m "metadata") ∧
    (∀ (info : StreamInfo) (m : AttrMap),
      resolveOne info m "filter_state." = resolveOne info m "filter_state") := by
  refine ⟨?_, ?_, ?_⟩
  · intro l hdot hnul
    have hnul2 : '\x00' ∉ l ++ ['.'] := by
      intro hm
      rcases List.mem_append.mp hm with h1 | h2
      · exact hnul h1
      · simp at h2
    constructor
    · rw [tokenizePath_no_nul _ hnul2]
      have hidx : dotIdx (l ++ ['.']) = l.length := by
        unfold dotIdx
        rw [cppFind_append_self '.' l hdot]
      rw [hidx]
      simp only [Prod.mk.injEq]
      refine ⟨List.take_left l ['.'], ?_⟩
      rw [List.drop_eq_nil_of_le]
      simp
    · rw [tokenizePath_no_nul _ hnul]
      have hidx : dotIdx l = l.length := by
        unfold dotIdx
        rw [cppFind_of_not_mem '.' l hdot]
      rw [hidx]
      simp only [Prod.mk.injEq]
      refine ⟨List.take_length l, ?_⟩
      rw [List.drop_eq_nil_of_le]
      omega
  · intro info m
    rfl
  · intro info m
    rfl

/-- C10 witness: the theorem applied to the concrete namespace name
"metadata". -/
theorem trailing_dot_whole_namespace_witness :
    tokenizePath ("metadata".data ++ ['.']) = ("metadata".data, []) :=
  ((trailing_dot_whole_namespace.1 "metadata".data (by decide) (by decide)).1)

end EnvoyAttr
